import Mathlib

/-!
Verification of the TwoCivSim simulation engine (src/sim.py).

The Python module is shallowly embedded: every float is modelled as a real
number, every mutating method of `Civilization` becomes a pure function
`Civilization → Civilization`, and the per-turn logic of `run_simulation`
becomes pure functions parameterised by the random draws the source pulls
from `random.uniform` / `random.random` / `random.sample`.
-/

namespace TwoCivSim

/-! Simulation constants (src/sim.py lines 4-29) -/

noncomputable def INITIAL_POPULATION : ℝ := 1000
noncomputable def INITIAL_RESOURCES : ℝ := 500
noncomputable def INITIAL_TECH_LEVEL : ℝ := 1.0

noncomputable def POP_GROWTH_RATE_BASE : ℝ := 0.01
noncomputable def RESOURCE_GATHER_BASE : ℝ := 0.5
noncomputable def TECH_IMPROVEMENT_BASE : ℝ := 0.01

noncomputable def CONFLICT_THRESHOLD_AGG : ℝ := 6.0
noncomputable def COOPERATION_THRESHOLD_COOP : ℝ := 12.0
noncomputable def STRENGTH_DIFF_AGG_MOD : ℝ := 1.5

noncomputable def POP_RESOURCE_COST : ℝ := 0.1
noncomputable def TECH_RESOURCE_COST : ℝ := 50

noncomputable def STRENGTH_ADVANTAGE_FACTOR : ℝ := 1.2
noncomputable def COMBAT_LOSS_BASE : ℝ := 0.1
noncomputable def TECH_COMBAT_FACTOR : ℝ := 1.5

noncomputable def COOP_RESOURCE_BONUS : ℝ := 0.05
noncomputable def COOP_TECH_BONUS : ℝ := 0.02

/-! The Civilization record (src/sim.py lines 31-47) -/

/-- State of one civilization: the fields set by `Civilization.__init__`. -/
structure Civilization where
  name : String
  intelligence : ℝ
  tech_rate : ℝ
  aggressiveness : ℝ
  cooperation : ℝ
  population : ℝ
  resources : ℝ
  tech_level : ℝ
  is_alive : Bool

attribute [ext] Civilization

/-- `Civilization.__init__` (src/sim.py lines 34-47): traits are clamped with
`max`, the mutable state starts from the initial constants. -/
noncomputable def Civilization.init (name : String)
    (intelligence tech_rate aggressiveness cooperation : ℝ) : Civilization :=
  { name := name
    intelligence := max 1 intelligence
    tech_rate := max 0.1 tech_rate
    aggressiveness := max 0 aggressiveness
    cooperation := max 0 cooperation
    population := INITIAL_POPULATION
    resources := INITIAL_RESOURCES
    tech_level := INITIAL_TECH_LEVEL
    is_alive := true }

/-! Civilization methods (src/sim.py lines 49-115) -/

/-- `die` (src/sim.py lines 109-115): irreversibly zeroes the state. The
reason is only printed by the source, so it does not enter the state. -/
def die (c : Civilization) (reason : String) : Civilization :=
  { c with is_alive := false, population := 0, resources := 0, tech_level := 0 }

/-- `calculate_strength` (src/sim.py lines 49-54). -/
noncomputable def calculate_strength (c : Civilization) : ℝ :=
  if c.is_alive = false then 0
  else c.population * c.tech_level ^ TECH_COMBAT_FACTOR

/-- `gather_resources` (src/sim.py lines 56-62). -/
noncomputable def gather_resources (c : Civilization) : Civilization :=
  if c.is_alive = false then c
  else
    { c with resources := c.resources +
        c.population * RESOURCE_GATHER_BASE * (1 + c.tech_level / 10) }

/-- `consume_resources` (src/sim.py lines 64-79). -/
noncomputable def consume_resources (c : Civilization) : Civilization :=
  if c.is_alive = false then c
  else
    let consumed := c.population * POP_RESOURCE_COST
    let res := c.resources - consumed
    if res < 0 then
      let deficit := |res|
      let pop_loss := min c.population (deficit / POP_RESOURCE_COST * 1.5)
      let c' := { c with population := c.population - pop_loss, resources := 0 }
      if c'.population ≤ 0 then die c' "starvation due to resource depletion" else c'
    else
      { c with resources := res }

/-- `grow_population` (src/sim.py lines 81-90). -/
noncomputable def grow_population (c : Civilization) : Civilization :=
  if c.is_alive = false ∨ c.resources ≤ 0 then c
  else
    let resource_factor :=
      max 0 (1 + c.resources / (c.population * POP_RESOURCE_COST * 5 + 1))
    let growth :=
      c.population * POP_GROWTH_RATE_BASE * resource_factor * (1 + c.cooperation / 20)
    { c with population := c.population + growth }

/-- `develop_technology` (src/sim.py lines 92-107). -/
noncomputable def develop_technology (c : Civilization) : Civilization :=
  if c.is_alive = false ∨ c.resources < TECH_RESOURCE_COST then c
  else
    let tech_points_potential :=
      c.intelligence * c.tech_rate * TECH_IMPROVEMENT_BASE * (c.population / 1000) /
        (1 + c.tech_level * 0.1)
    let resources_to_spend := min c.resources (tech_points_potential * TECH_RESOURCE_COST)
    let tech_points_gained := resources_to_spend / TECH_RESOURCE_COST
    { c with resources := c.resources - resources_to_spend,
             tech_level := c.tech_level + tech_points_gained }

/-! Random draws of one turn of `run_simulation`

The source draws, per turn and in this order: `random.uniform(0.8, 1.2)` for
the conflict threshold, `random.random()` for the opportunistic attack,
`random.sample` for the attacker tie-break, `random.uniform(0.7, 1.3)` twice
for the two loss multipliers, and `random.uniform(0.8, 1.2)` for the
cooperation threshold. Draws on branches not taken are simply unused. -/

structure TurnDraws where
  u_conflict : ℝ
  r_attack : ℝ
  sample_first : Bool
  u_att : ℝ
  u_def : ℝ
  u_coop : ℝ

/-- The ranges the source's random draws always lie in. -/
def DrawsInRange (d : TurnDraws) : Prop :=
  0.8 ≤ d.u_conflict ∧ d.u_conflict ≤ 1.2 ∧
  0 ≤ d.r_attack ∧ d.r_attack < 1 ∧
  0.7 ≤ d.u_att ∧ d.u_att ≤ 1.3 ∧
  0.7 ≤ d.u_def ∧ d.u_def ≤ 1.3 ∧
  0.8 ≤ d.u_coop ∧ d.u_coop ≤ 1.2

/-! Conflict decision (src/sim.py lines 153-180) -/

/-- The `stronger_civ, weaker_civ, strength_ratio` triple computed in
src/sim.py lines 159-170; `none` when neither branch assigns them. -/
noncomputable def stronger_weaker (civ1 civ2 : Civilization) :
    Option (Civilization × Civilization × ℝ) :=
  let strength1 := calculate_strength civ1
  let strength2 := calculate_strength civ2
  if strength1 > strength2 ∧ strength2 > 0 then some (civ1, civ2, strength1 / strength2)
  else if strength2 > strength1 ∧ strength1 > 0 then some (civ2, civ1, strength2 / strength1)
  else none

/-- The conflict check of src/sim.py lines 172-180. -/
noncomputable def will_fight (civ1 civ2 : Civilization) (d : TurnDraws) : Bool :=
  if civ1.aggressiveness + civ2.aggressiveness > CONFLICT_THRESHOLD_AGG * d.u_conflict then
    true
  else
    match stronger_weaker civ1 civ2 with
    | some (stronger, weaker, r) =>
        if stronger.aggressiveness > weaker.aggressiveness + 3 ∧ r > STRENGTH_DIFF_AGG_MOD then
          if d.r_attack < stronger.aggressiveness / 10 then true else false
        else false
    | none => false

/-! Combat resolution (src/sim.py lines 198-231) -/

noncomputable def defender_effective_strength (s_attacker s_defender : ℝ) : ℝ :=
  s_defender / (1 + max 0 (s_attacker / (s_defender + 1) - 1))

noncomputable def attacker_loss_mult (s_attacker s_defender u : ℝ) : ℝ :=
  COMBAT_LOSS_BASE *
    (1 + defender_effective_strength s_attacker s_defender / (s_attacker + 1)) * u

noncomputable def defender_loss_mult (s_attacker s_defender u : ℝ) : ℝ :=
  COMBAT_LOSS_BASE *
    (1 + s_attacker / (defender_effective_strength s_attacker s_defender + 1)) * u

/-- Population loss of one side (src/sim.py lines 209, 212 capped at 216, 218):
the raw loss `population * mult / (1 + tech_level * 0.1)` capped at 90%. -/
noncomputable def pop_loss (c : Civilization) (mult : ℝ) : ℝ :=
  min (c.population * 0.9) (c.population * mult * (1 / (1 + c.tech_level * 0.1)))

/-- Resource loss of one side (src/sim.py lines 210, 213 capped at 217, 219). -/
noncomputable def res_loss (c : Civilization) (mult : ℝ) : ℝ :=
  min (c.resources * 0.9) (c.resources * mult * (1 + c.tech_level * 0.1))

/-- Loss application of src/sim.py lines 199-224: both sides lose the capped
population and resource amounts; no elimination check yet. -/
noncomputable def apply_combat_losses (attacker defender : Civilization)
    (u_att u_def : ℝ) : Civilization × Civilization :=
  let s_attacker := calculate_strength attacker
  let s_defender := calculate_strength defender
  let am := attacker_loss_mult s_attacker s_defender u_att
  let dm := defender_loss_mult s_attacker s_defender u_def
  ({ attacker with population := attacker.population - pop_loss attacker am,
                   resources := attacker.resources - res_loss attacker am },
   { defender with population := defender.population - pop_loss defender dm,
                   resources := defender.resources - res_loss defender dm })

/-- Combat (src/sim.py lines 198-231): apply losses, then each side dies if
its population is ≤ 1 or its resources are < 0. Returns (attacker, defender). -/
noncomputable def resolve_combat (attacker defender : Civilization)
    (u_att u_def : ℝ) : Civilization × Civilization :=
  let p := apply_combat_losses attacker defender u_att u_def
  (if p.1.population ≤ 1 ∨ p.1.resources < 0 then die p.1 "combat losses" else p.1,
   if p.2.population ≤ 1 ∨ p.2.resources < 0 then die p.2 "combat losses" else p.2)

/-- Attacker determination and combat, returning the pair in (civ1, civ2)
order (src/sim.py lines 186-231). -/
noncomputable def resolve_conflict (civ1 civ2 : Civilization) (d : TurnDraws) :
    Civilization × Civilization :=
  if civ1.aggressiveness > civ2.aggressiveness then
    resolve_combat civ1 civ2 d.u_att d.u_def
  else if civ2.aggressiveness > civ1.aggressiveness then
    ((resolve_combat civ2 civ1 d.u_att d.u_def).2, (resolve_combat civ2 civ1 d.u_att d.u_def).1)
  else if d.sample_first then
    resolve_combat civ1 civ2 d.u_att d.u_def
  else
    ((resolve_combat civ2 civ1 d.u_att d.u_def).2, (resolve_combat civ2 civ1 d.u_att d.u_def).1)

/-! Cooperation (src/sim.py lines 234-251) -/

noncomputable def cooperate (civ1 civ2 : Civilization) : Civilization × Civilization :=
  let res_bonus1 := civ1.resources * COOP_RESOURCE_BONUS * (civ2.cooperation / 10)
  let res_bonus2 := civ2.resources * COOP_RESOURCE_BONUS * (civ1.cooperation / 10)
  let tech_bonus1 := COOP_TECH_BONUS * (civ2.intelligence / 5)
  let tech_bonus2 := COOP_TECH_BONUS * (civ1.intelligence / 5)
  ({ civ1 with resources := civ1.resources + res_bonus1,
               tech_level := civ1.tech_level + tech_bonus1 },
   { civ2 with resources := civ2.resources + res_bonus2,
               tech_level := civ2.tech_level + tech_bonus2 })

/-! Interaction phase and per-turn step (src/sim.py lines 133-267) -/

inductive InteractionKind where
  | conflict
  | cooperation
  | nothing
deriving DecidableEq

/-- Which interaction the turn resolves to (src/sim.py lines 172-255). -/
noncomputable def interaction_kind (civ1 civ2 : Civilization) (d : TurnDraws) :
    InteractionKind :=
  if will_fight civ1 civ2 d then InteractionKind.conflict
  else if civ1.cooperation + civ2.cooperation > COOPERATION_THRESHOLD_COOP * d.u_coop then
    InteractionKind.cooperation
  else InteractionKind.nothing

/-- The interaction phase, given that both civilizations survived the
economic phase (src/sim.py lines 152-255). -/
noncomputable def interaction_step (civ1 civ2 : Civilization) (d : TurnDraws) :
    Civilization × Civilization :=
  if will_fight civ1 civ2 d then resolve_conflict civ1 civ2 d
  else if civ1.cooperation + civ2.cooperation > COOPERATION_THRESHOLD_COOP * d.u_coop then
    cooperate civ1 civ2
  else (civ1, civ2)

/-- One civilization's economic update within a turn (src/sim.py lines 137-143):
gather, consume, and if still alive grow then research. -/
noncomputable def economic_update (c : Civilization) : Civilization :=
  if c.is_alive = true then
    let c' := consume_resources (gather_resources c)
    if c'.is_alive = true then develop_technology (grow_population c') else c'
  else c

/-- One full turn (src/sim.py lines 133-255): economic phase for both, then
the interaction phase unless a civilization died during the economic phase. -/
noncomputable def turn_step (p : Civilization × Civilization) (d : TurnDraws) :
    Civilization × Civilization :=
  let c1 := economic_update p.1
  let c2 := economic_update p.2
  if c1.is_alive = false ∨ c2.is_alive = false then (c1, c2)
  else interaction_step c1 c2 d

/-- The interaction kind a turn starting from `p` resolves to:
`nothing` when the interaction phase is skipped because a civilization
died during the economic phase. -/
noncomputable def turn_kind (p : Civilization × Civilization) (d : TurnDraws) :
    InteractionKind :=
  let c1 := economic_update p.1
  let c2 := economic_update p.2
  if c1.is_alive = false ∨ c2.is_alive = false then InteractionKind.nothing
  else interaction_kind c1 c2 d

/-- `run_simulation`'s loop (src/sim.py lines 133-267): one `TurnDraws` per
turn of the configured limit; the loop breaks after any turn that leaves a
civilization dead. -/
noncomputable def run_sim :
    Civilization × Civilization → List TurnDraws → Civilization × Civilization
  | p, [] => p
  | p, d :: ds =>
      if (turn_step p d).1.is_alive = false ∨ (turn_step p d).2.is_alive = false then
        turn_step p d
      else run_sim (turn_step p d) ds

/-! Concrete states reaching the cooperation check with zero resources -/

/-- A civilization that reaches the cooperation check with zero resources:
construction followed by one `develop_technology`, which spends all 500
initial resources (`intelligence = 1100` makes the research potential
`11 / 1.1 = 10`, so the spend cap is `10 * 50 = 500`). -/
noncomputable def coopCivA : Civilization :=
  develop_technology (Civilization.init "A" 1100 1 1 12)

noncomputable def coopCivB : Civilization := Civilization.init "B" 1 1 1 12

noncomputable def coopDraw : TurnDraws := ⟨1, 0, true, 1, 1, 1⟩

/-! Reachable states

`SimStep` relates a pair of civilizations to the pair after one completed
operation of the source: one of the five `Civilization` methods applied to
either component, or one interaction phase (which the loop only runs when
both civilizations are alive). `Reachable` closes the constructed pairs
under these steps. -/

inductive SimStep : Civilization × Civilization → Civilization × Civilization → Prop where
  | gather1 (c1 c2 : Civilization) : SimStep (c1, c2) (gather_resources c1, c2)
  | gather2 (c1 c2 : Civilization) : SimStep (c1, c2) (c1, gather_resources c2)
  | consume1 (c1 c2 : Civilization) : SimStep (c1, c2) (consume_resources c1, c2)
  | consume2 (c1 c2 : Civilization) : SimStep (c1, c2) (c1, consume_resources c2)
  | grow1 (c1 c2 : Civilization) : SimStep (c1, c2) (grow_population c1, c2)
  | grow2 (c1 c2 : Civilization) : SimStep (c1, c2) (c1, grow_population c2)
  | develop1 (c1 c2 : Civilization) : SimStep (c1, c2) (develop_technology c1, c2)
  | develop2 (c1 c2 : Civilization) : SimStep (c1, c2) (c1, develop_technology c2)
  | die1 (c1 c2 : Civilization) (r : String) : SimStep (c1, c2) (die c1 r, c2)
  | die2 (c1 c2 : Civilization) (r : String) : SimStep (c1, c2) (c1, die c2 r)
  | interact (c1 c2 : Civilization) (d : TurnDraws) (h1 : c1.is_alive = true)
      (h2 : c2.is_alive = true) : SimStep (c1, c2) (interaction_step c1 c2 d)

/-- A pair as `run_simulation` receives it: both civilizations freshly
constructed. -/
def InitialPair (p : Civilization × Civilization) : Prop :=
  ∃ n1 i1 t1 a1 co1 n2 i2 t2 a2 co2,
    p = (Civilization.init n1 i1 t1 a1 co1, Civilization.init n2 i2 t2 a2 co2)

/-- Pairs reachable from a constructed pair by completed operations. -/
def Reachable (p : Civilization × Civilization) : Prop :=
  ∃ q, InitialPair q ∧ Relation.ReflTransGen SimStep q p

/-- A civilization occurring in some reachable pair. -/
def CivReachable (c : Civilization) : Prop :=
  ∃ p, Reachable p ∧ (c = p.1 ∨ c = p.2)

/-- The state invariant of one civilization: the constructor's trait clamps,
positive population / nonnegative resources / tech ≥ 1 while alive, and the
all-zero dead state. -/
def WellFormed (c : Civilization) : Prop :=
  1 ≤ c.intelligence ∧ 0.1 ≤ c.tech_rate ∧
  0 ≤ c.aggressiveness ∧ 0 ≤ c.cooperation ∧
  (c.is_alive = true → 0 < c.population ∧ 0 ≤ c.resources ∧ 1 ≤ c.tech_level) ∧
  (c.is_alive = false → c.population = 0 ∧ c.resources = 0 ∧ c.tech_level = 0)

def WellFormedPair (p : Civilization × Civilization) : Prop :=
  WellFormed p.1 ∧ WellFormed p.2

/-! Field bookkeeping lemmas -/

@[simp] lemma die_intelligence (c : Civilization) (r : String) :
    (die c r).intelligence = c.intelligence := rfl
@[simp] lemma die_tech_rate (c : Civilization) (r : String) :
    (die c r).tech_rate = c.tech_rate := rfl
@[simp] lemma die_aggressiveness (c : Civilization) (r : String) :
    (die c r).aggressiveness = c.aggressiveness := rfl
@[simp] lemma die_cooperation (c : Civilization) (r : String) :
    (die c r).cooperation = c.cooperation := rfl
@[simp] lemma die_population (c : Civilization) (r : String) :
    (die c r).population = 0 := rfl
@[simp] lemma die_resources (c : Civilization) (r : String) :
    (die c r).resources = 0 := rfl
@[simp] lemma die_tech_level (c : Civilization) (r : String) :
    (die c r).tech_level = 0 := rfl
@[simp] lemma die_is_alive (c : Civilization) (r : String) :
    (die c r).is_alive = false := rfl

@[simp] lemma gather_intelligence (c : Civilization) :
    (gather_resources c).intelligence = c.intelligence := by
  unfold gather_resources; split_ifs <;> rfl
@[simp] lemma gather_tech_rate (c : Civilization) :
    (gather_resources c).tech_rate = c.tech_rate := by
  unfold gather_resources; split_ifs <;> rfl
@[simp] lemma gather_aggressiveness (c : Civilization) :
    (gather_resources c).aggressiveness = c.aggressiveness := by
  unfold gather_resources; split_ifs <;> rfl
@[simp] lemma gather_cooperation (c : Civilization) :
    (gather_resources c).cooperation = c.cooperation := by
  unfold gather_resources; split_ifs <;> rfl
@[simp] lemma gather_population (c : Civilization) :
    (gather_resources c).population = c.population := by
  unfold gather_resources; split_ifs <;> rfl
@[simp] lemma gather_tech_level (c : Civilization) :
    (gather_resources c).tech_level = c.tech_level := by
  unfold gather_resources; split_ifs <;> rfl
@[simp] lemma gather_is_alive (c : Civilization) :
    (gather_resources c).is_alive = c.is_alive := by
  unfold gather_resources; split_ifs with h
  · rfl
  · rfl

@[simp] lemma consume_intelligence (c : Civilization) :
    (consume_resources c).intelligence = c.intelligence := by
  simp only [consume_resources, die]; split_ifs <;> rfl
@[simp] lemma consume_tech_rate (c : Civilization) :
    (consume_resources c).tech_rate = c.tech_rate := by
  simp only [consume_resources, die]; split_ifs <;> rfl
@[simp] lemma consume_aggressiveness (c : Civilization) :
    (consume_resources c).aggressiveness = c.aggressiveness := by
  simp only [consume_resources, die]; split_ifs <;> rfl
@[simp] lemma consume_cooperation (c : Civilization) :
    (consume_resources c).cooperation = c.cooperation := by
  simp only [consume_resources, die]; split_ifs <;> rfl

lemma consume_alive_of_alive (c : Civilization)
    (h : (consume_resources c).is_alive = true) : c.is_alive = true := by
  by_cases hc : c.is_alive = false
  · unfold consume_resources at h; rw [if_pos hc] at h; exact h
  · simpa using hc

lemma consume_tech_level_of_alive (c : Civilization)
    (h : (consume_resources c).is_alive = true) :
    (consume_resources c).tech_level = c.tech_level := by
  simp only [consume_resources, die] at h ⊢
  split_ifs at h ⊢ <;> simp_all

@[simp] lemma grow_intelligence (c : Civilization) :
    (grow_population c).intelligence = c.intelligence := by
  unfold grow_population; split_ifs <;> rfl
@[simp] lemma grow_tech_rate (c : Civilization) :
    (grow_population c).tech_rate = c.tech_rate := by
  unfold grow_population; split_ifs <;> rfl
@[simp] lemma grow_aggressiveness (c : Civilization) :
    (grow_population c).aggressiveness = c.aggressiveness := by
  unfold grow_population; split_ifs <;> rfl
@[simp] lemma grow_cooperation (c : Civilization) :
    (grow_population c).cooperation = c.cooperation := by
  unfold grow_population; split_ifs <;> rfl
@[simp] lemma grow_resources (c : Civilization) :
    (grow_population c).resources = c.resources := by
  unfold grow_population; split_ifs <;> rfl
@[simp] lemma grow_tech_level (c : Civilization) :
    (grow_population c).tech_level = c.tech_level := by
  unfold grow_population; split_ifs <;> rfl
@[simp] lemma grow_is_alive (c : Civilization) :
    (grow_population c).is_alive = c.is_alive := by
  unfold grow_population; split_ifs <;> rfl

@[simp] lemma develop_intelligence (c : Civilization) :
    (develop_technology c).intelligence = c.intelligence := by
  unfold develop_technology; split_ifs <;> rfl
@[simp] lemma develop_tech_rate (c : Civilization) :
    (develop_technology c).tech_rate = c.tech_rate := by
  unfold develop_technology; split_ifs <;> rfl
@[simp] lemma develop_aggressiveness (c : Civilization) :
    (develop_technology c).aggressiveness = c.aggressiveness := by
  unfold develop_technology; split_ifs <;> rfl
@[simp] lemma develop_cooperation (c : Civilization) :
    (develop_technology c).cooperation = c.cooperation := by
  unfold develop_technology; split_ifs <;> rfl
@[simp] lemma develop_population (c : Civilization) :
    (develop_technology c).population = c.population := by
  unfold develop_technology; split_ifs <;> rfl
@[simp] lemma develop_is_alive (c : Civilization) :
    (develop_technology c).is_alive = c.is_alive := by
  unfold develop_technology; split_ifs <;> rfl

/-! Combat and cooperation field lemmas -/

@[simp] lemma acl_1_intelligence (a b : Civilization) (u v : ℝ) :
    (apply_combat_losses a b u v).1.intelligence = a.intelligence := rfl
@[simp] lemma acl_1_tech_rate (a b : Civilization) (u v : ℝ) :
    (apply_combat_losses a b u v).1.tech_rate = a.tech_rate := rfl
@[simp] lemma acl_1_aggressiveness (a b : Civilization) (u v : ℝ) :
    (apply_combat_losses a b u v).1.aggressiveness = a.aggressiveness := rfl
@[simp] lemma acl_1_cooperation (a b : Civilization) (u v : ℝ) :
    (apply_combat_losses a b u v).1.cooperation = a.cooperation := rfl
@[simp] lemma acl_1_tech_level (a b : Civilization) (u v : ℝ) :
    (apply_combat_losses a b u v).1.tech_level = a.tech_level := rfl
@[simp] lemma acl_1_is_alive (a b : Civilization) (u v : ℝ) :
    (apply_combat_losses a b u v).1.is_alive = a.is_alive := rfl
@[simp] lemma acl_2_intelligence (a b : Civilization) (u v : ℝ) :
    (apply_combat_losses a b u v).2.intelligence = b.intelligence := rfl
@[simp] lemma acl_2_tech_rate (a b : Civilization) (u v : ℝ) :
    (apply_combat_losses a b u v).2.tech_rate = b.tech_rate := rfl
@[simp] lemma acl_2_aggressiveness (a b : Civilization) (u v : ℝ) :
    (apply_combat_losses a b u v).2.aggressiveness = b.aggressiveness := rfl
@[simp] lemma acl_2_cooperation (a b : Civilization) (u v : ℝ) :
    (apply_combat_losses a b u v).2.cooperation = b.cooperation := rfl
@[simp] lemma acl_2_tech_level (a b : Civilization) (u v : ℝ) :
    (apply_combat_losses a b u v).2.tech_level = b.tech_level := rfl
@[simp] lemma acl_2_is_alive (a b : Civilization) (u v : ℝ) :
    (apply_combat_losses a b u v).2.is_alive = b.is_alive := rfl

lemma acl_1_population (a b : Civilization) (u v : ℝ) :
    (apply_combat_losses a b u v).1.population = a.population -
      pop_loss a (attacker_loss_mult (calculate_strength a) (calculate_strength b) u) := rfl
lemma acl_1_resources (a b : Civilization) (u v : ℝ) :
    (apply_combat_losses a b u v).1.resources = a.resources -
      res_loss a (attacker_loss_mult (calculate_strength a) (calculate_strength b) u) := rfl
lemma acl_2_population (a b : Civilization) (u v : ℝ) :
    (apply_combat_losses a b u v).2.population = b.population -
      pop_loss b (defender_loss_mult (calculate_strength a) (calculate_strength b) v) := rfl
lemma acl_2_resources (a b : Civilization) (u v : ℝ) :
    (apply_combat_losses a b u v).2.resources = b.resources -
      res_loss b (defender_loss_mult (calculate_strength a) (calculate_strength b) v) := rfl

lemma resolve_combat_1 (a b : Civilization) (u v : ℝ) :
    (resolve_combat a b u v).1 =
      if (apply_combat_losses a b u v).1.population ≤ 1 ∨
          (apply_combat_losses a b u v).1.resources < 0 then
        die (apply_combat_losses a b u v).1 "combat losses"
      else (apply_combat_losses a b u v).1 := rfl

lemma resolve_combat_2 (a b : Civilization) (u v : ℝ) :
    (resolve_combat a b u v).2 =
      if (apply_combat_losses a b u v).2.population ≤ 1 ∨
          (apply_combat_losses a b u v).2.resources < 0 then
        die (apply_combat_losses a b u v).2 "combat losses"
      else (apply_combat_losses a b u v).2 := rfl

@[simp] lemma cooperate_1_intelligence (a b : Civilization) :
    (cooperate a b).1.intelligence = a.intelligence := rfl
@[simp] lemma cooperate_1_tech_rate (a b : Civilization) :
    (cooperate a b).1.tech_rate = a.tech_rate := rfl
@[simp] lemma cooperate_1_aggressiveness (a b : Civilization) :
    (cooperate a b).1.aggressiveness = a.aggressiveness := rfl
@[simp] lemma cooperate_1_cooperation (a b : Civilization) :
    (cooperate a b).1.cooperation = a.cooperation := rfl
@[simp] lemma cooperate_1_population (a b : Civilization) :
    (cooperate a b).1.population = a.population := rfl
@[simp] lemma cooperate_1_is_alive (a b : Civilization) :
    (cooperate a b).1.is_alive = a.is_alive := rfl
@[simp] lemma cooperate_2_intelligence (a b : Civilization) :
    (cooperate a b).2.intelligence = b.intelligence := rfl
@[simp] lemma cooperate_2_tech_rate (a b : Civilization) :
    (cooperate a b).2.tech_rate = b.tech_rate := rfl
@[simp] lemma cooperate_2_aggressiveness (a b : Civilization) :
    (cooperate a b).2.aggressiveness = b.aggressiveness := rfl
@[simp] lemma cooperate_2_cooperation (a b : Civilization) :
    (cooperate a b).2.cooperation = b.cooperation := rfl
@[simp] lemma cooperate_2_population (a b : Civilization) :
    (cooperate a b).2.population = b.population := rfl
@[simp] lemma cooperate_2_is_alive (a b : Civilization) :
    (cooperate a b).2.is_alive = b.is_alive := rfl

lemma cooperate_1_resources (a b : Civilization) :
    (cooperate a b).1.resources =
      a.resources + a.resources * COOP_RESOURCE_BONUS * (b.cooperation / 10) := rfl
lemma cooperate_2_resources (a b : Civilization) :
    (cooperate a b).2.resources =
      b.resources + b.resources * COOP_RESOURCE_BONUS * (a.cooperation / 10) := rfl
lemma cooperate_1_tech_level (a b : Civilization) :
    (cooperate a b).1.tech_level =
      a.tech_level + COOP_TECH_BONUS * (b.intelligence / 5) := rfl
lemma cooperate_2_tech_level (a b : Civilization) :
    (cooperate a b).2.tech_level =
      b.tech_level + COOP_TECH_BONUS * (a.intelligence / 5) := rfl

/-! Preservation of the state invariant -/

lemma init_wf (n : String) (i t a co : ℝ) : WellFormed (Civilization.init n i t a co) := by
  refine ⟨le_max_left 1 i, le_max_left 0.1 t, le_max_left 0 a, le_max_left 0 co,
    fun _ => ⟨?_, ?_, ?_⟩, fun hd => absurd hd (by simp [Civilization.init])⟩
  · show (0:ℝ) < INITIAL_POPULATION
    norm_num [INITIAL_POPULATION]
  · show (0:ℝ) ≤ INITIAL_RESOURCES
    norm_num [INITIAL_RESOURCES]
  · show (1:ℝ) ≤ INITIAL_TECH_LEVEL
    norm_num [INITIAL_TECH_LEVEL]

lemma wf_die_of_traits (x : Civilization) (r : String) (h1 : 1 ≤ x.intelligence)
    (h2 : 0.1 ≤ x.tech_rate) (h3 : 0 ≤ x.aggressiveness) (h4 : 0 ≤ x.cooperation) :
    WellFormed (die x r) := by
  exact ⟨h1, h2, h3, h4, fun ha => absurd ha (by simp), fun _ => ⟨rfl, rfl, rfl⟩⟩

lemma wf_gather (c : Civilization) (h : WellFormed c) : WellFormed (gather_resources c) := by
  obtain ⟨h1, h2, h3, h4, h5, h6⟩ := h
  unfold gather_resources
  split_ifs with hc
  · exact ⟨h1, h2, h3, h4, h5, h6⟩
  · have hal : c.is_alive = true := by simpa using hc
    obtain ⟨hp, hr, ht⟩ := h5 hal
    refine ⟨h1, h2, h3, h4, fun _ => ⟨hp, ?_, ht⟩, fun hd => absurd hd hc⟩
    have hb : (0:ℝ) < RESOURCE_GATHER_BASE := by norm_num [RESOURCE_GATHER_BASE]
    have h10 : (0:ℝ) < 1 + c.tech_level / 10 := by linarith
    have := mul_pos (mul_pos hp hb) h10
    show 0 ≤ c.resources + c.population * RESOURCE_GATHER_BASE * (1 + c.tech_level / 10)
    linarith

lemma wf_consume (c : Civilization) (h : WellFormed c) : WellFormed (consume_resources c) := by
  obtain ⟨h1, h2, h3, h4, h5, h6⟩ := h
  simp only [consume_resources, die]
  split_ifs with hc hneg hdead
  · exact ⟨h1, h2, h3, h4, h5, h6⟩
  · exact ⟨h1, h2, h3, h4, fun ha => absurd ha (by simp), fun _ => ⟨rfl, rfl, rfl⟩⟩
  · have hal : c.is_alive = true := by simpa using hc
    obtain ⟨hp, hr, ht⟩ := h5 hal
    refine ⟨h1, h2, h3, h4, fun _ => ⟨not_le.mp hdead, le_refl 0, ht⟩,
      fun hd => absurd hd hc⟩
  · have hal : c.is_alive = true := by simpa using hc
    obtain ⟨hp, hr, ht⟩ := h5 hal
    exact ⟨h1, h2, h3, h4, fun _ => ⟨hp, not_lt.mp hneg, ht⟩, fun hd => absurd hd hc⟩

lemma wf_grow (c : Civilization) (h : WellFormed c) : WellFormed (grow_population c) := by
  obtain ⟨h1, h2, h3, h4, h5, h6⟩ := h
  simp only [grow_population]
  split_ifs with hc
  · exact ⟨h1, h2, h3, h4, h5, h6⟩
  · obtain ⟨hA, hR⟩ := not_or.mp hc
    have hal : c.is_alive = true := by simpa using hA
    obtain ⟨hp, hr, ht⟩ := h5 hal
    refine ⟨h1, h2, h3, h4, fun _ => ⟨?_, hr, ht⟩, fun hd => absurd hd hA⟩
    have hgb : (0:ℝ) < POP_GROWTH_RATE_BASE := by norm_num [POP_GROWTH_RATE_BASE]
    have hfac : (0:ℝ) ≤ max 0 (1 + c.resources / (c.population * POP_RESOURCE_COST * 5 + 1)) :=
      le_max_left 0 _
    have hcoop : (0:ℝ) < 1 + c.cooperation / 20 := by linarith
    have hgrowth : 0 ≤ c.population * POP_GROWTH_RATE_BASE *
        max 0 (1 + c.resources / (c.population * POP_RESOURCE_COST * 5 + 1)) *
        (1 + c.cooperation / 20) := by
      have := mul_nonneg (mul_nonneg (mul_nonneg hp.le hgb.le) hfac) hcoop.le
      exact this
    show 0 < c.population + c.population * POP_GROWTH_RATE_BASE *
        max 0 (1 + c.resources / (c.population * POP_RESOURCE_COST * 5 + 1)) *
        (1 + c.cooperation / 20)
    linarith

lemma wf_develop (c : Civilization) (h : WellFormed c) : WellFormed (develop_technology c) := by
  obtain ⟨h1, h2, h3, h4, h5, h6⟩ := h
  simp only [develop_technology]
  split_ifs with hc
  · exact ⟨h1, h2, h3, h4, h5, h6⟩
  · obtain ⟨hA, hR⟩ := not_or.mp hc
    have hal : c.is_alive = true := by simpa using hA
    obtain ⟨hp, hr, ht⟩ := h5 hal
    have hres : TECH_RESOURCE_COST ≤ c.resources := not_lt.mp hR
    have htrc : (0:ℝ) < TECH_RESOURCE_COST := by norm_num [TECH_RESOURCE_COST]
    have hpot : 0 ≤ c.intelligence * c.tech_rate * TECH_IMPROVEMENT_BASE *
        (c.population / 1000) / (1 + c.tech_level * 0.1) := by
      have hnum : 0 ≤ c.intelligence * c.tech_rate * TECH_IMPROVEMENT_BASE *
          (c.population / 1000) := by
        have hib : (0:ℝ) < TECH_IMPROVEMENT_BASE := by norm_num [TECH_IMPROVEMENT_BASE]
        have : (0:ℝ) ≤ c.intelligence := by linarith
        have h2' : (0:ℝ) ≤ c.tech_rate := by norm_num at h2 ⊢; linarith
        have hpq : (0:ℝ) ≤ c.population / 1000 := by positivity
        exact mul_nonneg (mul_nonneg (mul_nonneg this h2') hib.le) hpq
      have hden : (0:ℝ) < 1 + c.tech_level * 0.1 := by nlinarith
      exact div_nonneg hnum hden.le
    have hspend0 : 0 ≤ min c.resources (c.intelligence * c.tech_rate * TECH_IMPROVEMENT_BASE *
        (c.population / 1000) / (1 + c.tech_level * 0.1) * TECH_RESOURCE_COST) :=
      le_min (by linarith) (mul_nonneg hpot htrc.le)
    have hspend1 : min c.resources (c.intelligence * c.tech_rate * TECH_IMPROVEMENT_BASE *
        (c.population / 1000) / (1 + c.tech_level * 0.1) * TECH_RESOURCE_COST) ≤ c.resources :=
      min_le_left _ _
    refine ⟨h1, h2, h3, h4, fun _ => ⟨hp, ?_, ?_⟩, fun hd => absurd hd hA⟩
    · show 0 ≤ c.resources - min c.resources (c.intelligence * c.tech_rate *
        TECH_IMPROVEMENT_BASE * (c.population / 1000) / (1 + c.tech_level * 0.1) *
        TECH_RESOURCE_COST)
      linarith
    · show 1 ≤ c.tech_level + min c.resources (c.intelligence * c.tech_rate *
        TECH_IMPROVEMENT_BASE * (c.population / 1000) / (1 + c.tech_level * 0.1) *
        TECH_RESOURCE_COST) / TECH_RESOURCE_COST
      have : 0 ≤ min c.resources (c.intelligence * c.tech_rate * TECH_IMPROVEMENT_BASE *
          (c.population / 1000) / (1 + c.tech_level * 0.1) * TECH_RESOURCE_COST) /
          TECH_RESOURCE_COST := div_nonneg hspend0 htrc.le
      linarith

lemma wf_cooperate (a b : Civilization) (ha : WellFormed a) (hb : WellFormed b)
    (hal : a.is_alive = true) (hbl : b.is_alive = true) :
    WellFormed (cooperate a b).1 ∧ WellFormed (cooperate a b).2 := by
  obtain ⟨a1, a2, a3, a4, a5, a6⟩ := ha
  obtain ⟨b1, b2, b3, b4, b5, b6⟩ := hb
  obtain ⟨hap, har, hat⟩ := a5 hal
  obtain ⟨hbp, hbr, hbt⟩ := b5 hbl
  have hcb : (0:ℝ) < COOP_RESOURCE_BONUS := by norm_num [COOP_RESOURCE_BONUS]
  have htb : (0:ℝ) < COOP_TECH_BONUS := by norm_num [COOP_TECH_BONUS]
  constructor
  · refine ⟨a1, a2, a3, a4, fun _ => ⟨by simpa using hap, ?_, ?_⟩,
      fun hd => absurd (by simpa using hd) (by simp [hal])⟩
    · rw [cooperate_1_resources]
      have : 0 ≤ a.resources * COOP_RESOURCE_BONUS * (b.cooperation / 10) :=
        mul_nonneg (mul_nonneg har hcb.le) (by linarith)
      linarith
    · rw [cooperate_1_tech_level]
      have : 0 ≤ COOP_TECH_BONUS * (b.intelligence / 5) :=
        mul_nonneg htb.le (by linarith)
      linarith
  · refine ⟨b1, b2, b3, b4, fun _ => ⟨by simpa using hbp, ?_, ?_⟩,
      fun hd => absurd (by simpa using hd) (by simp [hbl])⟩
    · rw [cooperate_2_resources]
      have : 0 ≤ b.resources * COOP_RESOURCE_BONUS * (a.cooperation / 10) :=
        mul_nonneg (mul_nonneg hbr hcb.le) (by linarith)
      linarith
    · rw [cooperate_2_tech_level]
      have : 0 ≤ COOP_TECH_BONUS * (a.intelligence / 5) :=
        mul_nonneg htb.le (by linarith)
      linarith

lemma wf_resolve_combat (a b : Civilization) (u v : ℝ) (ha : WellFormed a) (hb : WellFormed b)
    (hal : a.is_alive = true) (hbl : b.is_alive = true) :
    WellFormed (resolve_combat a b u v).1 ∧ WellFormed (resolve_combat a b u v).2 := by
  obtain ⟨a1, a2, a3, a4, a5, a6⟩ := ha
  obtain ⟨b1, b2, b3, b4, b5, b6⟩ := hb
  obtain ⟨hap, har, hat⟩ := a5 hal
  obtain ⟨hbp, hbr, hbt⟩ := b5 hbl
  constructor
  · rw [resolve_combat_1]
    split_ifs with hcond
    · exact wf_die_of_traits _ _ (by simpa using a1) (by simpa using a2)
        (by simpa using a3) (by simpa using a4)
    · push_neg at hcond
      refine ⟨by simpa using a1, by simpa using a2, by simpa using a3, by simpa using a4,
        fun _ => ⟨by linarith [hcond.1], hcond.2, by simpa using hat⟩,
        fun hd => absurd (by simpa using hd) (by simp [hal])⟩
  · rw [resolve_combat_2]
    split_ifs with hcond
    · exact wf_die_of_traits _ _ (by simpa using b1) (by simpa using b2)
        (by simpa using b3) (by simpa using b4)
    · push_neg at hcond
      refine ⟨by simpa using b1, by simpa using b2, by simpa using b3, by simpa using b4,
        fun _ => ⟨by linarith [hcond.1], hcond.2, by simpa using hbt⟩,
        fun hd => absurd (by simpa using hd) (by simp [hbl])⟩

lemma wf_interaction_step (a b : Civilization) (d : TurnDraws) (ha : WellFormed a)
    (hb : WellFormed b) (hal : a.is_alive = true) (hbl : b.is_alive = true) :
    WellFormedPair (interaction_step a b d) := by
  unfold interaction_step
  split_ifs with hf hcp
  · unfold resolve_conflict
    split_ifs with h1 h2 h3
    · exact ⟨(wf_resolve_combat a b d.u_att d.u_def ha hb hal hbl).1,
        (wf_resolve_combat a b d.u_att d.u_def ha hb hal hbl).2⟩
    · exact ⟨(wf_resolve_combat b a d.u_att d.u_def hb ha hbl hal).2,
        (wf_resolve_combat b a d.u_att d.u_def hb ha hbl hal).1⟩
    · exact ⟨(wf_resolve_combat a b d.u_att d.u_def ha hb hal hbl).1,
        (wf_resolve_combat a b d.u_att d.u_def ha hb hal hbl).2⟩
    · exact ⟨(wf_resolve_combat b a d.u_att d.u_def hb ha hbl hal).2,
        (wf_resolve_combat b a d.u_att d.u_def hb ha hbl hal).1⟩
  · exact ⟨(wf_cooperate a b ha hb hal hbl).1, (wf_cooperate a b ha hb hal hbl).2⟩
  · exact ⟨ha, hb⟩

lemma wf_simStep (p q : Civilization × Civilization) (hp : WellFormedPair p)
    (hs : SimStep p q) : WellFormedPair q := by
  obtain ⟨h1, h2⟩ := hp
  cases hs with
  | gather1 c1 c2 => exact ⟨wf_gather c1 h1, h2⟩
  | gather2 c1 c2 => exact ⟨h1, wf_gather c2 h2⟩
  | consume1 c1 c2 => exact ⟨wf_consume c1 h1, h2⟩
  | consume2 c1 c2 => exact ⟨h1, wf_consume c2 h2⟩
  | grow1 c1 c2 => exact ⟨wf_grow c1 h1, h2⟩
  | grow2 c1 c2 => exact ⟨h1, wf_grow c2 h2⟩
  | develop1 c1 c2 => exact ⟨wf_develop c1 h1, h2⟩
  | develop2 c1 c2 => exact ⟨h1, wf_develop c2 h2⟩
  | die1 c1 c2 r => exact ⟨wf_die_of_traits c1 r h1.1 h1.2.1 h1.2.2.1 h1.2.2.2.1, h2⟩
  | die2 c1 c2 r => exact ⟨h1, wf_die_of_traits c2 r h2.1 h2.2.1 h2.2.2.1 h2.2.2.2.1⟩
  | interact c1 c2 d ha hb => exact wf_interaction_step c1 c2 d h1 h2 ha hb

lemma reachable_wf (p : Civilization × Civilization) (hp : Reachable p) :
    WellFormedPair p := by
  obtain ⟨q, hq, hsteps⟩ := hp
  induction hsteps with
  | refl =>
      obtain ⟨n1, i1, t1, a1, co1, n2, i2, t2, a2, co2, rfl⟩ := hq
      exact ⟨init_wf n1 i1 t1 a1 co1, init_wf n2 i2 t2 a2 co2⟩
  | tail hab hbc ih => exact wf_simStep _ _ ih hbc

lemma civReachable_wf (c : Civilization) (hc : CivReachable c) : WellFormed c := by
  obtain ⟨p, hp, hcp⟩ := hc
  have := reachable_wf p hp
  cases hcp with
  | inl h => rw [h]; exact this.1
  | inr h => rw [h]; exact this.2

/-! The 90% cap is a floor on the remaining amount -/

/-- Subtracting a loss capped at 90% of a nonnegative quantity leaves at
least 10% of it. -/
lemma sub_min_cap_nonneg (r x : ℝ) (hr : 0 ≤ r) : 0 ≤ r - min (r * 0.9) x := by
  rcases le_total (r * 0.9) x with h | h
  · rw [min_eq_left h]; linarith
  · rw [min_eq_right h]; linarith

/-! Decision helpers -/

lemma stronger_weaker_cases (c1 c2 : Civilization) :
    stronger_weaker c1 c2 = none ∨
    (∃ r, stronger_weaker c1 c2 = some (c1, c2, r)) ∨
    (∃ r, stronger_weaker c1 c2 = some (c2, c1, r)) := by
  simp only [stronger_weaker]
  split_ifs
  · exact Or.inr (Or.inl ⟨_, rfl⟩)
  · exact Or.inr (Or.inr ⟨_, rfl⟩)
  · exact Or.inl rfl

/-- The conflict check fails whenever the combined-aggression draw fails and
neither civilization out-aggresses the other by more than 3. -/
lemma will_fight_eq_false (c1 c2 : Civilization) (d : TurnDraws)
    (h1 : ¬(c1.aggressiveness + c2.aggressiveness > CONFLICT_THRESHOLD_AGG * d.u_conflict))
    (h2 : ¬(c1.aggressiveness > c2.aggressiveness + 3))
    (h3 : ¬(c2.aggressiveness > c1.aggressiveness + 3)) :
    will_fight c1 c2 d = false := by
  unfold will_fight
  rw [if_neg h1]
  rcases stronger_weaker_cases c1 c2 with h | ⟨r, h⟩ | ⟨r, h⟩ <;> rw [h]
  · show (if c1.aggressiveness > c2.aggressiveness + 3 ∧ r > STRENGTH_DIFF_AGG_MOD then
      if d.r_attack < c1.aggressiveness / 10 then true else false else false) = false
    rw [if_neg (fun hand => h2 hand.1)]
  · show (if c2.aggressiveness > c1.aggressiveness + 3 ∧ r > STRENGTH_DIFF_AGG_MOD then
      if d.r_attack < c2.aggressiveness / 10 then true else false else false) = false
    rw [if_neg (fun hand => h3 hand.1)]

lemma interaction_kind_eq_nothing (c1 c2 : Civilization) (d : TurnDraws)
    (hf : will_fight c1 c2 d = false)
    (hc : ¬(c1.cooperation + c2.cooperation > COOPERATION_THRESHOLD_COOP * d.u_coop)) :
    interaction_kind c1 c2 d = InteractionKind.nothing := by
  unfold interaction_kind
  rw [hf]
  simp [hc]

lemma interaction_kind_eq_cooperation (c1 c2 : Civilization) (d : TurnDraws)
    (hf : will_fight c1 c2 d = false)
    (hc : c1.cooperation + c2.cooperation > COOPERATION_THRESHOLD_COOP * d.u_coop) :
    interaction_kind c1 c2 d = InteractionKind.cooperation := by
  unfold interaction_kind
  rw [hf]
  simp [hc]

lemma interaction_step_of_cooperation (c1 c2 : Civilization) (d : TurnDraws)
    (hk : interaction_kind c1 c2 d = InteractionKind.cooperation) :
    interaction_step c1 c2 d = cooperate c1 c2 := by
  unfold interaction_kind at hk
  unfold interaction_step
  split_ifs at hk ⊢ with h1 h2
  · rfl

/-! Trait preservation through the loop -/

@[simp] lemma resolve_combat_1_aggressiveness (a b : Civilization) (u v : ℝ) :
    (resolve_combat a b u v).1.aggressiveness = a.aggressiveness := by
  rw [resolve_combat_1]; split_ifs <;> simp

@[simp] lemma resolve_combat_2_aggressiveness (a b : Civilization) (u v : ℝ) :
    (resolve_combat a b u v).2.aggressiveness = b.aggressiveness := by
  rw [resolve_combat_2]; split_ifs <;> simp

@[simp] lemma resolve_combat_1_cooperation (a b : Civilization) (u v : ℝ) :
    (resolve_combat a b u v).1.cooperation = a.cooperation := by
  rw [resolve_combat_1]; split_ifs <;> simp

@[simp] lemma resolve_combat_2_cooperation (a b : Civilization) (u v : ℝ) :
    (resolve_combat a b u v).2.cooperation = b.cooperation := by
  rw [resolve_combat_2]; split_ifs <;> simp

lemma interaction_step_1_aggressiveness (c1 c2 : Civilization) (d : TurnDraws) :
    (interaction_step c1 c2 d).1.aggressiveness = c1.aggressiveness := by
  unfold interaction_step resolve_conflict
  split_ifs <;> simp

lemma interaction_step_2_aggressiveness (c1 c2 : Civilization) (d : TurnDraws) :
    (interaction_step c1 c2 d).2.aggressiveness = c2.aggressiveness := by
  unfold interaction_step resolve_conflict
  split_ifs <;> simp

lemma interaction_step_1_cooperation (c1 c2 : Civilization) (d : TurnDraws) :
    (interaction_step c1 c2 d).1.cooperation = c1.cooperation := by
  unfold interaction_step resolve_conflict
  split_ifs <;> simp

lemma interaction_step_2_cooperation (c1 c2 : Civilization) (d : TurnDraws) :
    (interaction_step c1 c2 d).2.cooperation = c2.cooperation := by
  unfold interaction_step resolve_conflict
  split_ifs <;> simp

@[simp] lemma economic_update_aggressiveness (c : Civilization) :
    (economic_update c).aggressiveness = c.aggressiveness := by
  simp only [economic_update]; split_ifs <;> simp

@[simp] lemma economic_update_cooperation (c : Civilization) :
    (economic_update c).cooperation = c.cooperation := by
  simp only [economic_update]; split_ifs <;> simp

lemma turn_step_1_aggressiveness (p : Civilization × Civilization) (d : TurnDraws) :
    (turn_step p d).1.aggressiveness = p.1.aggressiveness := by
  simp only [turn_step]
  split_ifs <;> simp [interaction_step_1_aggressiveness]

lemma turn_step_2_aggressiveness (p : Civilization × Civilization) (d : TurnDraws) :
    (turn_step p d).2.aggressiveness = p.2.aggressiveness := by
  simp only [turn_step]
  split_ifs <;> simp [interaction_step_2_aggressiveness]

lemma turn_step_1_cooperation (p : Civilization × Civilization) (d : TurnDraws) :
    (turn_step p d).1.cooperation = p.1.cooperation := by
  simp only [turn_step]
  split_ifs <;> simp [interaction_step_1_cooperation]

lemma turn_step_2_cooperation (p : Civilization × Civilization) (d : TurnDraws) :
    (turn_step p d).2.cooperation = p.2.cooperation := by
  simp only [turn_step]
  split_ifs <;> simp [interaction_step_2_cooperation]

lemma run_sim_1_aggressiveness (ds : List TurnDraws) (p : Civilization × Civilization) :
    (run_sim p ds).1.aggressiveness = p.1.aggressiveness := by
  induction ds generalizing p with
  | nil => rfl
  | cons d ds ih =>
      unfold run_sim
      split_ifs
      · exact turn_step_1_aggressiveness p d
      · rw [ih (turn_step p d)]; exact turn_step_1_aggressiveness p d

lemma run_sim_2_aggressiveness (ds : List TurnDraws) (p : Civilization × Civilization) :
    (run_sim p ds).2.aggressiveness = p.2.aggressiveness := by
  induction ds generalizing p with
  | nil => rfl
  | cons d ds ih =>
      unfold run_sim
      split_ifs
      · exact turn_step_2_aggressiveness p d
      · rw [ih (turn_step p d)]; exact turn_step_2_aggressiveness p d

lemma run_sim_1_cooperation (ds : List TurnDraws) (p : Civilization × Civilization) :
    (run_sim p ds).1.cooperation = p.1.cooperation := by
  induction ds generalizing p with
  | nil => rfl
  | cons d ds ih =>
      unfold run_sim
      split_ifs
      · exact turn_step_1_cooperation p d
      · rw [ih (turn_step p d)]; exact turn_step_1_cooperation p d

lemma run_sim_2_cooperation (ds : List TurnDraws) (p : Civilization × Civilization) :
    (run_sim p ds).2.cooperation = p.2.cooperation := by
  induction ds generalizing p with
  | nil => rfl
  | cons d ds ih =>
      unfold run_sim
      split_ifs
      · exact turn_step_2_cooperation p d
      · rw [ih (turn_step p d)]; exact turn_step_2_cooperation p d

/-! Tech level monotonicity helpers -/

lemma develop_tech_mono (c : Civilization) (h : WellFormed c) :
    c.tech_level ≤ (develop_technology c).tech_level := by
  obtain ⟨h1, h2, h3, h4, h5, h6⟩ := h
  simp only [develop_technology]
  split_ifs with hc
  · exact le_refl _
  · obtain ⟨hA, hR⟩ := not_or.mp hc
    have hal : c.is_alive = true := by simpa using hA
    obtain ⟨hp, hr, ht⟩ := h5 hal
    have htrc : (0:ℝ) < TECH_RESOURCE_COST := by norm_num [TECH_RESOURCE_COST]
    have hpot : 0 ≤ c.intelligence * c.tech_rate * TECH_IMPROVEMENT_BASE *
        (c.population / 1000) / (1 + c.tech_level * 0.1) := by
      have hib : (0:ℝ) < TECH_IMPROVEMENT_BASE := by norm_num [TECH_IMPROVEMENT_BASE]
      have hi : (0:ℝ) ≤ c.intelligence := by linarith
      have h2' : (0:ℝ) ≤ c.tech_rate := by norm_num at h2 ⊢; linarith
      have hpq : (0:ℝ) ≤ c.population / 1000 := by positivity
      have hden : (0:ℝ) < 1 + c.tech_level * 0.1 := by nlinarith
      exact div_nonneg (mul_nonneg (mul_nonneg (mul_nonneg hi h2') hib.le) hpq) hden.le
    have hspend0 : 0 ≤ min c.resources (c.intelligence * c.tech_rate *
        TECH_IMPROVEMENT_BASE * (c.population / 1000) / (1 + c.tech_level * 0.1) *
        TECH_RESOURCE_COST) := le_min hr (mul_nonneg hpot htrc.le)
    show c.tech_level ≤ c.tech_level + min c.resources (c.intelligence * c.tech_rate *
        TECH_IMPROVEMENT_BASE * (c.population / 1000) / (1 + c.tech_level * 0.1) *
        TECH_RESOURCE_COST) / TECH_RESOURCE_COST
    have : 0 ≤ min c.resources (c.intelligence * c.tech_rate * TECH_IMPROVEMENT_BASE *
        (c.population / 1000) / (1 + c.tech_level * 0.1) * TECH_RESOURCE_COST) /
        TECH_RESOURCE_COST := div_nonneg hspend0 htrc.le
    linarith

lemma resolve_combat_1_tech_of_alive (a b : Civilization) (u v : ℝ)
    (h : (resolve_combat a b u v).1.is_alive = true) :
    (resolve_combat a b u v).1.tech_level = a.tech_level := by
  rw [resolve_combat_1] at h ⊢
  split_ifs at h ⊢
  · simp at h
  · simp

lemma resolve_combat_2_tech_of_alive (a b : Civilization) (u v : ℝ)
    (h : (resolve_combat a b u v).2.is_alive = true) :
    (resolve_combat a b u v).2.tech_level = b.tech_level := by
  rw [resolve_combat_2] at h ⊢
  split_ifs at h ⊢
  · simp at h
  · simp

/-- One source operation: a civilization that is alive afterwards was alive
before and its tech level did not decrease. -/
lemma tech_step (p q : Civilization × Civilization) (hp : WellFormedPair p)
    (hs : SimStep p q) :
    (q.1.is_alive = true → p.1.is_alive = true ∧ p.1.tech_level ≤ q.1.tech_level) ∧
    (q.2.is_alive = true → p.2.is_alive = true ∧ p.2.tech_level ≤ q.2.tech_level) := by
  obtain ⟨hw1, hw2⟩ := hp
  cases hs with
  | gather1 c1 c2 =>
      exact ⟨fun h => ⟨by simpa using h, by simp⟩, fun h => ⟨h, le_refl _⟩⟩
  | gather2 c1 c2 =>
      exact ⟨fun h => ⟨h, le_refl _⟩, fun h => ⟨by simpa using h, by simp⟩⟩
  | consume1 c1 c2 =>
      exact ⟨fun h => ⟨consume_alive_of_alive c1 h,
        le_of_eq (consume_tech_level_of_alive c1 h).symm⟩, fun h => ⟨h, le_refl _⟩⟩
  | consume2 c1 c2 =>
      exact ⟨fun h => ⟨h, le_refl _⟩, fun h => ⟨consume_alive_of_alive c2 h,
        le_of_eq (consume_tech_level_of_alive c2 h).symm⟩⟩
  | grow1 c1 c2 =>
      exact ⟨fun h => ⟨by simpa using h, by simp⟩, fun h => ⟨h, le_refl _⟩⟩
  | grow2 c1 c2 =>
      exact ⟨fun h => ⟨h, le_refl _⟩, fun h => ⟨by simpa using h, by simp⟩⟩
  | develop1 c1 c2 =>
      exact ⟨fun h => ⟨by simpa using h, develop_tech_mono c1 hw1⟩, fun h => ⟨h, le_refl _⟩⟩
  | develop2 c1 c2 =>
      exact ⟨fun h => ⟨h, le_refl _⟩, fun h => ⟨by simpa using h, develop_tech_mono c2 hw2⟩⟩
  | die1 c1 c2 r =>
      exact ⟨fun h => absurd h (by simp), fun h => ⟨h, le_refl _⟩⟩
  | die2 c1 c2 r =>
      exact ⟨fun h => ⟨h, le_refl _⟩, fun h => absurd h (by simp)⟩
  | interact c1 c2 d h1 h2 =>
      have hi2 : (0:ℝ) ≤ c2.intelligence := by linarith [hw2.1]
      have hi1 : (0:ℝ) ≤ c1.intelligence := by linarith [hw1.1]
      have htb : (0:ℝ) < COOP_TECH_BONUS := by norm_num [COOP_TECH_BONUS]
      constructor
      · unfold interaction_step resolve_conflict
        split_ifs with hf ha hb hc
        · intro hq
          exact ⟨h1, le_of_eq (resolve_combat_1_tech_of_alive c1 c2 _ _ hq).symm⟩
        · intro hq
          exact ⟨h1, le_of_eq (resolve_combat_2_tech_of_alive c2 c1 _ _ hq).symm⟩
        · intro hq
          exact ⟨h1, le_of_eq (resolve_combat_1_tech_of_alive c1 c2 _ _ hq).symm⟩
        · intro hq
          exact ⟨h1, le_of_eq (resolve_combat_2_tech_of_alive c2 c1 _ _ hq).symm⟩
        · intro _
          refine ⟨h1, ?_⟩
          rw [cooperate_1_tech_level]
          have : 0 ≤ COOP_TECH_BONUS * (c2.intelligence / 5) :=
            mul_nonneg htb.le (by linarith)
          linarith
        · exact fun _ => ⟨h1, le_refl _⟩
      · unfold interaction_step resolve_conflict
        split_ifs with hf ha hb hc
        · intro hq
          exact ⟨h2, le_of_eq (resolve_combat_2_tech_of_alive c1 c2 _ _ hq).symm⟩
        · intro hq
          exact ⟨h2, le_of_eq (resolve_combat_1_tech_of_alive c2 c1 _ _ hq).symm⟩
        · intro hq
          exact ⟨h2, le_of_eq (resolve_combat_2_tech_of_alive c1 c2 _ _ hq).symm⟩
        · intro hq
          exact ⟨h2, le_of_eq (resolve_combat_1_tech_of_alive c2 c1 _ _ hq).symm⟩
        · intro _
          refine ⟨h2, ?_⟩
          rw [cooperate_2_tech_level]
          have : 0 ≤ COOP_TECH_BONUS * (c1.intelligence / 5) :=
            mul_nonneg htb.le (by linarith)
          linarith
        · exact fun _ => ⟨h2, le_refl _⟩

lemma wf_steps (p q : Civilization × Civilization) (hp : WellFormedPair p)
    (hs : Relation.ReflTransGen SimStep p q) : WellFormedPair q := by
  induction hs with
  | refl => exact hp
  | tail hab hbc ih => exact wf_simStep _ _ ih hbc

lemma tech_mono_steps (p q : Civilization × Civilization) (hp : WellFormedPair p)
    (hs : Relation.ReflTransGen SimStep p q) :
    (q.1.is_alive = true → p.1.is_alive = true ∧ p.1.tech_level ≤ q.1.tech_level) ∧
    (q.2.is_alive = true → p.2.is_alive = true ∧ p.2.tech_level ≤ q.2.tech_level) := by
  induction hs with
  | refl => exact ⟨fun h => ⟨h, le_refl _⟩, fun h => ⟨h, le_refl _⟩⟩
  | tail hab hbc ih =>
      have hwfb := wf_steps _ _ hp hab
      have hstep := tech_step _ _ hwfb hbc
      constructor
      · intro hq
        obtain ⟨hb1, hbt⟩ := hstep.1 hq
        obtain ⟨hp1, hpt⟩ := ih.1 hb1
        exact ⟨hp1, le_trans hpt hbt⟩
      · intro hq
        obtain ⟨hb2, hbt⟩ := hstep.2 hq
        obtain ⟨hp2, hpt⟩ := ih.2 hb2
        exact ⟨hp2, le_trans hpt hbt⟩

/-! Remaining helpers for the claims -/

lemma acl_1_res_nonneg (a b : Civilization) (u v : ℝ) (hra : 0 ≤ a.resources) :
    0 ≤ (apply_combat_losses a b u v).1.resources := by
  rw [acl_1_resources]
  unfold res_loss
  exact sub_min_cap_nonneg _ _ hra

lemma acl_2_res_nonneg (a b : Civilization) (u v : ℝ) (hrb : 0 ≤ b.resources) :
    0 ≤ (apply_combat_losses a b u v).2.resources := by
  rw [acl_2_resources]
  unfold res_loss
  exact sub_min_cap_nonneg _ _ hrb

/-! The claims -/

/-- C1: once a civilization is dead (`alive == false`), it is a terminal sink:
its population, resources and tech_level are all 0, and no subsequent call to
`gather_resources`, `consume_resources`, `grow_population`,
`develop_technology` or `die` changes its population, resources, tech_level
or alive status. -/
theorem C1_dead_terminal_sink (c : Civilization) (h : CivReachable c)
    (hd : c.is_alive = false) :
    c.population = 0 ∧ c.resources = 0 ∧ c.tech_level = 0 ∧
    gather_resources c = c ∧ consume_resources c = c ∧ grow_population c = c ∧
    develop_technology c = c ∧ ∀ r : String, die c r = c := by
  have hw := civReachable_wf c h
  obtain ⟨-, -, -, -, -, h6⟩ := hw
  obtain ⟨hp, hr, ht⟩ := h6 hd
  refine ⟨hp, hr, ht, ?_, ?_, ?_, ?_, ?_⟩
  · unfold gather_resources; rw [if_pos hd]
  · unfold consume_resources; rw [if_pos hd]
  · unfold grow_population; rw [if_pos (Or.inl hd)]
  · unfold develop_technology; rw [if_pos (Or.inl hd)]
  · intro r
    ext <;> simp [die, hd, hp, hr, ht]

theorem C1_witness :
    gather_resources (die (Civilization.init "A" 1 1 0 0) "elimination") =
      die (Civilization.init "A" 1 1 0 0) "elimination" :=
  (C1_dead_terminal_sink _
    ⟨(die (Civilization.init "A" 1 1 0 0) "elimination", Civilization.init "B" 1 1 0 0),
      ⟨(Civilization.init "A" 1 1 0 0, Civilization.init "B" 1 1 0 0),
        ⟨"A", 1, 1, 0, 0, "B", 1, 1, 0, 0, rfl⟩,
        Relation.ReflTransGen.single (SimStep.die1 _ _ _)⟩,
      Or.inl rfl⟩ rfl).2.2.2.1

/-- C2: `calculate_strength()` returns 0 exactly when `alive == false`; while
alive it returns `population * tech_level ^ TECH_COMBAT_FACTOR` (exponent
1.5) and is strictly increasing in both population and tech_level. -/
theorem C2_calculate_strength (c : Civilization) (h : CivReachable c) :
    (calculate_strength c = 0 ↔ c.is_alive = false) ∧
    (c.is_alive = true →
      calculate_strength c = c.population * c.tech_level ^ TECH_COMBAT_FACTOR ∧
      TECH_COMBAT_FACTOR = 1.5 ∧
      (∀ p1 p2 : ℝ, p1 < p2 →
        calculate_strength { c with population := p1 } <
          calculate_strength { c with population := p2 }) ∧
      (∀ t1 t2 : ℝ, 0 ≤ t1 → t1 < t2 →
        calculate_strength { c with tech_level := t1 } <
          calculate_strength { c with tech_level := t2 })) := by
  have hw := civReachable_wf c h
  obtain ⟨-, -, -, -, h5, -⟩ := hw
  by_cases hd : c.is_alive = false
  · refine ⟨⟨fun _ => hd, fun _ => ?_⟩, fun hal => ?_⟩
    · unfold calculate_strength; rw [if_pos hd]
    · rw [hal] at hd; simp at hd
  · have hal : c.is_alive = true := by simpa using hd
    obtain ⟨hp, hr, ht⟩ := h5 hal
    have htpos : (0:ℝ) < c.tech_level := by linarith
    have hsf : calculate_strength c = c.population * c.tech_level ^ TECH_COMBAT_FACTOR := by
      unfold calculate_strength; rw [if_neg hd]
    have hexp : (0:ℝ) < TECH_COMBAT_FACTOR := by norm_num [TECH_COMBAT_FACTOR]
    have hrp : (0:ℝ) < c.tech_level ^ TECH_COMBAT_FACTOR := Real.rpow_pos_of_pos htpos _
    refine ⟨⟨fun h0 => ?_, fun hd' => ?_⟩, fun _ => ⟨hsf, by norm_num [TECH_COMBAT_FACTOR],
      fun p1 p2 hlt => ?_, fun t1 t2 ht1 hlt => ?_⟩⟩
    · rw [hsf] at h0
      exact absurd h0 (ne_of_gt (mul_pos hp hrp))
    · rw [hal] at hd'; simp at hd'
    · have e1 : calculate_strength { c with population := p1 } =
          p1 * c.tech_level ^ TECH_COMBAT_FACTOR := by
        simp only [calculate_strength]
        rw [if_neg (by simpa using hd)]
      have e2 : calculate_strength { c with population := p2 } =
          p2 * c.tech_level ^ TECH_COMBAT_FACTOR := by
        simp only [calculate_strength]
        rw [if_neg (by simpa using hd)]
      rw [e1, e2]
      exact mul_lt_mul_of_pos_right hlt hrp
    · have e1 : calculate_strength { c with tech_level := t1 } =
          c.population * t1 ^ TECH_COMBAT_FACTOR := by
        simp only [calculate_strength]
        rw [if_neg (by simpa using hd)]
      have e2 : calculate_strength { c with tech_level := t2 } =
          c.population * t2 ^ TECH_COMBAT_FACTOR := by
        simp only [calculate_strength]
        rw [if_neg (by simpa using hd)]
      rw [e1, e2]
      exact mul_lt_mul_of_pos_left (Real.rpow_lt_rpow ht1 hlt hexp) hp

theorem C2_witness :
    calculate_strength (Civilization.init "A" 1 1 0 0) = 0 ↔
      (Civilization.init "A" 1 1 0 0).is_alive = false :=
  (C2_calculate_strength _
    ⟨(Civilization.init "A" 1 1 0 0, Civilization.init "B" 1 1 0 0),
      ⟨(Civilization.init "A" 1 1 0 0, Civilization.init "B" 1 1 0 0),
        ⟨"A", 1, 1, 0, 0, "B", 1, 1, 0, 0, rfl⟩, Relation.ReflTransGen.refl⟩,
      Or.inl rfl⟩).1

/-- C3: `consume_resources()` on an alive civilization: resources are never
left negative; when the subtraction stays nonnegative it is applied as-is;
when it goes negative, the starvation branch removes
`min(population, deficit / POP_RESOURCE_COST * 1.5)` population, clamps
resources to 0, and calls `die` with the starvation reason exactly when the
resulting population is ≤ 0. -/
theorem C3_consume_resources (c : Civilization) (h : c.is_alive = true) :
    0 ≤ (consume_resources c).resources ∧
    (0 ≤ c.resources - c.population * POP_RESOURCE_COST →
      consume_resources c =
        { c with resources := c.resources - c.population * POP_RESOURCE_COST }) ∧
    (c.resources - c.population * POP_RESOURCE_COST < 0 →
      0 < c.population - min c.population
          (|c.resources - c.population * POP_RESOURCE_COST| / POP_RESOURCE_COST * 1.5) →
      consume_resources c =
        { c with
          population := c.population - min c.population
            (|c.resources - c.population * POP_RESOURCE_COST| / POP_RESOURCE_COST * 1.5),
          resources := 0 }) ∧
    (c.resources - c.population * POP_RESOURCE_COST < 0 →
      c.population - min c.population
          (|c.resources - c.population * POP_RESOURCE_COST| / POP_RESOURCE_COST * 1.5) ≤ 0 →
      consume_resources c =
        die { c with
          population := c.population - min c.population
            (|c.resources - c.population * POP_RESOURCE_COST| / POP_RESOURCE_COST * 1.5),
          resources := 0 } "starvation due to resource depletion") := by
  have hc : ¬(c.is_alive = false) := by simp [h]
  refine ⟨?_, ?_, ?_, ?_⟩
  · simp only [consume_resources]
    rw [if_neg hc]
    split_ifs with h1 h2
    · simp [die]
    · exact le_refl 0
    · exact not_lt.mp h1
  · intro hge
    simp only [consume_resources]
    rw [if_neg hc, if_neg (not_lt.mpr hge)]
  · intro hlt hpos
    simp only [consume_resources]
    rw [if_neg hc, if_pos hlt, if_neg (not_le.mpr hpos)]
  · intro hlt hle
    simp only [consume_resources]
    rw [if_neg hc, if_pos hlt, if_pos hle]

theorem C3_witness :
    0 ≤ (consume_resources (Civilization.init "A" 1 1 0 0)).resources :=
  (C3_consume_resources (Civilization.init "A" 1 1 0 0) rfl).1

/-- C4: in every combat resolution, each side's applied population loss is at
most 90% of its pre-combat population and its applied resource loss is at
most 90% of its pre-combat resources. -/
theorem C4_combat_loss_cap (attacker defender : Civilization) (u_att u_def : ℝ) :
    attacker.population - (apply_combat_losses attacker defender u_att u_def).1.population ≤
      attacker.population * 0.9 ∧
    attacker.resources - (apply_combat_losses attacker defender u_att u_def).1.resources ≤
      attacker.resources * 0.9 ∧
    defender.population - (apply_combat_losses attacker defender u_att u_def).2.population ≤
      defender.population * 0.9 ∧
    defender.resources - (apply_combat_losses attacker defender u_att u_def).2.resources ≤
      defender.resources * 0.9 := by
  refine ⟨?_, ?_, ?_, ?_⟩
  · rw [acl_1_population, sub_sub_cancel]
    unfold pop_loss
    exact min_le_left _ _
  · rw [acl_1_resources, sub_sub_cancel]
    unfold res_loss
    exact min_le_left _ _
  · rw [acl_2_population, sub_sub_cancel]
    unfold pop_loss
    exact min_le_left _ _
  · rw [acl_2_resources, sub_sub_cancel]
    unfold res_loss
    exact min_le_left _ _

/-- C9: in every reachable state, an alive civilization has positive
population, nonnegative resources, tech level at least 1, and hence strictly
positive strength. -/
theorem C9_alive_invariant (p : Civilization × Civilization) (hp : Reachable p) :
    (p.1.is_alive = true → 0 < p.1.population ∧ 0 ≤ p.1.resources ∧
      1 ≤ p.1.tech_level ∧ 0 < calculate_strength p.1) ∧
    (p.2.is_alive = true → 0 < p.2.population ∧ 0 ≤ p.2.resources ∧
      1 ≤ p.2.tech_level ∧ 0 < calculate_strength p.2) := by
  have hw := reachable_wf p hp
  constructor
  · intro hal
    obtain ⟨hp1, hr1, ht1⟩ := hw.1.2.2.2.2.1 hal
    refine ⟨hp1, hr1, ht1, ?_⟩
    unfold calculate_strength
    rw [if_neg (by simp [hal])]
    exact mul_pos hp1 (Real.rpow_pos_of_pos (by linarith) _)
  · intro hal
    obtain ⟨hp2, hr2, ht2⟩ := hw.2.2.2.2.2.1 hal
    refine ⟨hp2, hr2, ht2, ?_⟩
    unfold calculate_strength
    rw [if_neg (by simp [hal])]
    exact mul_pos hp2 (Real.rpow_pos_of_pos (by linarith) _)

theorem C9_witness :
    0 < (Civilization.init "A" 1 1 0 0).population ∧
    0 ≤ (Civilization.init "A" 1 1 0 0).resources ∧
    1 ≤ (Civilization.init "A" 1 1 0 0).tech_level ∧
    0 < calculate_strength (Civilization.init "A" 1 1 0 0) :=
  (C9_alive_invariant (Civilization.init "A" 1 1 0 0, Civilization.init "B" 1 1 0 0)
    ⟨(Civilization.init "A" 1 1 0 0, Civilization.init "B" 1 1 0 0),
      ⟨"A", 1, 1, 0, 0, "B", 1, 1, 0, 0, rfl⟩, Relation.ReflTransGen.refl⟩).1 rfl

/-- C10: while a civilization remains alive its tech level never decreases
along any sequence of operations and interactions, and only death resets it
to 0. -/
theorem C10_tech_monotone (p q : Civilization × Civilization) (hp : Reachable p)
    (hs : Relation.ReflTransGen SimStep p q) :
    (q.1.is_alive = true → p.1.is_alive = true ∧ p.1.tech_level ≤ q.1.tech_level) ∧
    (q.2.is_alive = true → p.2.is_alive = true ∧ p.2.tech_level ≤ q.2.tech_level) ∧
    (q.1.is_alive = false → q.1.tech_level = 0) ∧
    (q.2.is_alive = false → q.2.tech_level = 0) := by
  have hw := reachable_wf p hp
  have hmono := tech_mono_steps p q hw hs
  have hreachq : Reachable q := by
    obtain ⟨s, hi, hsteps⟩ := hp
    exact ⟨s, hi, hsteps.trans hs⟩
  have hwq := reachable_wf q hreachq
  exact ⟨hmono.1, hmono.2, fun hd => (hwq.1.2.2.2.2.2 hd).2.2,
    fun hd => (hwq.2.2.2.2.2.2 hd).2.2⟩

theorem C10_witness :
    (Civilization.init "A" 1 1 0 0).is_alive = true ∧
    (Civilization.init "A" 1 1 0 0).tech_level ≤ (Civilization.init "A" 1 1 0 0).tech_level :=
  (C10_tech_monotone (Civilization.init "A" 1 1 0 0, Civilization.init "B" 1 1 0 0)
    (Civilization.init "A" 1 1 0 0, Civilization.init "B" 1 1 0 0)
    ⟨(Civilization.init "A" 1 1 0 0, Civilization.init "B" 1 1 0 0),
      ⟨"A", 1, 1, 0, 0, "B", 1, 1, 0, 0, rfl⟩, Relation.ReflTransGen.refl⟩
    Relation.ReflTransGen.refl).1 rfl

/-- C8: construction never rejects trait inputs: every trait is clamped with
`max` to its minimum, and the new civilization always starts with
population 1000, resources 500, tech level 1, alive. -/
theorem C8_construction_clamps (n : String) (i t a co : ℝ) :
    (Civilization.init n i t a co).intelligence = max 1 i ∧
    1 ≤ (Civilization.init n i t a co).intelligence ∧
    (Civilization.init n i t a co).tech_rate = max 0.1 t ∧
    0.1 ≤ (Civilization.init n i t a co).tech_rate ∧
    (Civilization.init n i t a co).aggressiveness = max 0 a ∧
    0 ≤ (Civilization.init n i t a co).aggressiveness ∧
    (Civilization.init n i t a co).cooperation = max 0 co ∧
    0 ≤ (Civilization.init n i t a co).cooperation ∧
    (Civilization.init n i t a co).population = 1000 ∧
    (Civilization.init n i t a co).resources = 500 ∧
    (Civilization.init n i t a co).tech_level = 1 ∧
    (Civilization.init n i t a co).is_alive = true := by
  refine ⟨rfl, le_max_left _ _, rfl, le_max_left _ _, rfl, le_max_left _ _, rfl,
    le_max_left _ _, ?_, ?_, ?_, rfl⟩
  · show INITIAL_POPULATION = 1000
    norm_num [INITIAL_POPULATION]
  · show INITIAL_RESOURCES = 500
    norm_num [INITIAL_RESOURCES]
  · show INITIAL_TECH_LEVEL = 1
    norm_num [INITIAL_TECH_LEVEL]

/-- C5 counterexample: contrary to the claim, no reachable combat can reach
the post-combat elimination check with negative resources: the 90% loss cap
leaves each side at least 10% of its (nonnegative) pre-combat resources. -/
theorem C5_counterexample :
    ¬ ∃ (attacker defender : Civilization) (u_att u_def : ℝ),
        CivReachable attacker ∧ CivReachable defender ∧
        attacker.is_alive = true ∧ defender.is_alive = true ∧
        ((apply_combat_losses attacker defender u_att u_def).1.resources < 0 ∨
         (apply_combat_losses attacker defender u_att u_def).2.resources < 0) := by
  rintro ⟨a, b, u, v, ha, hb, hal, hbl, hneg⟩
  have hra : 0 ≤ a.resources := ((civReachable_wf a ha).2.2.2.2.1 hal).2.1
  have hrb : 0 ≤ b.resources := ((civReachable_wf b hb).2.2.2.2.1 hbl).2.1
  rcases hneg with hcase | hcase
  · exact absurd hcase (not_lt.mpr (acl_1_res_nonneg a b u v hra))
  · exact absurd hcase (not_lt.mpr (acl_2_res_nonneg a b u v hrb))

/-- C5 amended: after combat losses are applied to civilizations with
nonnegative resources (as all reachable combatants have), each side's
resources are still nonnegative, so the `die("combat losses")` branch is
entered exactly when that side's population is ≤ 1 — never because
`resources < 0`. -/
theorem C5_amended (attacker defender : Civilization) (u_att u_def : ℝ)
    (ha : 0 ≤ attacker.resources) (hb : 0 ≤ defender.resources) :
    0 ≤ (apply_combat_losses attacker defender u_att u_def).1.resources ∧
    0 ≤ (apply_combat_losses attacker defender u_att u_def).2.resources ∧
    (((apply_combat_losses attacker defender u_att u_def).1.population ≤ 1 ∨
      (apply_combat_losses attacker defender u_att u_def).1.resources < 0) ↔
      (apply_combat_losses attacker defender u_att u_def).1.population ≤ 1) ∧
    (((apply_combat_losses attacker defender u_att u_def).2.population ≤ 1 ∨
      (apply_combat_losses attacker defender u_att u_def).2.resources < 0) ↔
      (apply_combat_losses attacker defender u_att u_def).2.population ≤ 1) := by
  have h1 := acl_1_res_nonneg attacker defender u_att u_def ha
  have h2 := acl_2_res_nonneg attacker defender u_att u_def hb
  refine ⟨h1, h2, ⟨?_, Or.inl⟩, ⟨?_, Or.inl⟩⟩
  · rintro (hcase | hcase)
    · exact hcase
    · exact absurd hcase (not_lt.mpr h1)
  · rintro (hcase | hcase)
    · exact hcase
    · exact absurd hcase (not_lt.mpr h2)

theorem C5_witness :
    0 ≤ (apply_combat_losses (Civilization.init "A" 1 1 0 0)
        (Civilization.init "B" 1 1 0 0) 1 1).1.resources :=
  (C5_amended (Civilization.init "A" 1 1 0 0) (Civilization.init "B" 1 1 0 0) 1 1
    (by norm_num [Civilization.init, INITIAL_RESOURCES])
    (by norm_num [Civilization.init, INITIAL_RESOURCES])).1

lemma coopCivA_eq : coopCivA =
    { name := "A"
      intelligence := 1100
      tech_rate := 1
      aggressiveness := 1
      cooperation := 12
      population := 1000
      resources := 0
      tech_level := 11
      is_alive := true } := by
  unfold coopCivA Civilization.init develop_technology
  norm_num [INITIAL_POPULATION, INITIAL_RESOURCES, INITIAL_TECH_LEVEL,
    TECH_RESOURCE_COST, TECH_IMPROVEMENT_BASE, max_def, min_def]

lemma coopCivB_eq : coopCivB =
    { name := "B"
      intelligence := 1
      tech_rate := 1
      aggressiveness := 1
      cooperation := 12
      population := 1000
      resources := 500
      tech_level := 1
      is_alive := true } := by
  unfold coopCivB Civilization.init
  norm_num [INITIAL_POPULATION, INITIAL_RESOURCES, INITIAL_TECH_LEVEL, max_def]

lemma coop_kind_cooperation :
    interaction_kind coopCivA coopCivB coopDraw = InteractionKind.cooperation := by
  apply interaction_kind_eq_cooperation
  · apply will_fight_eq_false
    · rw [coopCivA_eq, coopCivB_eq]
      norm_num [CONFLICT_THRESHOLD_AGG, coopDraw]
    · rw [coopCivA_eq, coopCivB_eq]
      norm_num
    · rw [coopCivA_eq, coopCivB_eq]
      norm_num
  · rw [coopCivA_eq, coopCivB_eq]
    norm_num [COOPERATION_THRESHOLD_COOP, coopDraw]

/-- C6 counterexample: a reachable cooperation between civilizations whose
traits are all positive, in which one side's resources do NOT strictly
increase (its resources are 0, so its resource bonus is 0). -/
theorem C6_counterexample :
    Reachable (coopCivA, coopCivB) ∧
    coopCivA.is_alive = true ∧ coopCivB.is_alive = true ∧
    0 < coopCivA.intelligence ∧ 0 < coopCivA.tech_rate ∧
    0 < coopCivA.aggressiveness ∧ 0 < coopCivA.cooperation ∧
    0 < coopCivB.intelligence ∧ 0 < coopCivB.tech_rate ∧
    0 < coopCivB.aggressiveness ∧ 0 < coopCivB.cooperation ∧
    interaction_kind coopCivA coopCivB coopDraw = InteractionKind.cooperation ∧
    ¬ (coopCivA.resources < (cooperate coopCivA coopCivB).1.resources) := by
  refine ⟨?_, ?_, rfl, ?_, ?_, ?_, ?_, ?_, ?_, ?_, ?_, coop_kind_cooperation, ?_⟩
  · exact ⟨(Civilization.init "A" 1100 1 1 12, Civilization.init "B" 1 1 1 12),
      ⟨"A", 1100, 1, 1, 12, "B", 1, 1, 1, 12, rfl⟩,
      Relation.ReflTransGen.single (SimStep.develop1 _ _)⟩
  · rw [coopCivA_eq]
  · rw [coopCivA_eq]; norm_num
  · rw [coopCivA_eq]; norm_num
  · rw [coopCivA_eq]; norm_num
  · rw [coopCivA_eq]; norm_num
  · rw [coopCivB_eq]; norm_num
  · rw [coopCivB_eq]; norm_num
  · rw [coopCivB_eq]; norm_num
  · rw [coopCivB_eq]; norm_num
  · rw [cooperate_1_resources, coopCivA_eq, coopCivB_eq]
    norm_num

/-- C6 amended: whenever a cooperation event triggers, the bonuses are the
stated formulas, both sides' tech levels strictly increase when the partner
traits are positive, and each side's resources strictly increase provided
that side's resources are positive (with zero resources the resource bonus
is zero, so resources are unchanged). -/
theorem C6_amended (civ1 civ2 : Civilization) (d : TurnDraws)
    (hk : interaction_kind civ1 civ2 d = InteractionKind.cooperation)
    (hi1 : 0 < civ1.intelligence) (hi2 : 0 < civ2.intelligence)
    (hc1 : 0 < civ1.cooperation) (hc2 : 0 < civ2.cooperation) :
    interaction_step civ1 civ2 d = cooperate civ1 civ2 ∧
    (cooperate civ1 civ2).1.resources =
      civ1.resources + civ1.resources * COOP_RESOURCE_BONUS * (civ2.cooperation / 10) ∧
    (cooperate civ1 civ2).2.resources =
      civ2.resources + civ2.resources * COOP_RESOURCE_BONUS * (civ1.cooperation / 10) ∧
    (cooperate civ1 civ2).1.tech_level =
      civ1.tech_level + COOP_TECH_BONUS * (civ2.intelligence / 5) ∧
    (cooperate civ1 civ2).2.tech_level =
      civ2.tech_level + COOP_TECH_BONUS * (civ1.intelligence / 5) ∧
    civ1.tech_level < (cooperate civ1 civ2).1.tech_level ∧
    civ2.tech_level < (cooperate civ1 civ2).2.tech_level ∧
    (0 < civ1.resources → civ1.resources < (cooperate civ1 civ2).1.resources) ∧
    (0 < civ2.resources → civ2.resources < (cooperate civ1 civ2).2.resources) := by
  have hrb : (0:ℝ) < COOP_RESOURCE_BONUS := by norm_num [COOP_RESOURCE_BONUS]
  have htb : (0:ℝ) < COOP_TECH_BONUS := by norm_num [COOP_TECH_BONUS]
  refine ⟨interaction_step_of_cooperation _ _ _ hk, cooperate_1_resources _ _,
    cooperate_2_resources _ _, cooperate_1_tech_level _ _, cooperate_2_tech_level _ _,
    ?_, ?_, ?_, ?_⟩
  · rw [cooperate_1_tech_level]
    have : 0 < COOP_TECH_BONUS * (civ2.intelligence / 5) :=
      mul_pos htb (div_pos hi2 (by norm_num))
    linarith
  · rw [cooperate_2_tech_level]
    have : 0 < COOP_TECH_BONUS * (civ1.intelligence / 5) :=
      mul_pos htb (div_pos hi1 (by norm_num))
    linarith
  · intro hr
    rw [cooperate_1_resources]
    have : 0 < civ1.resources * COOP_RESOURCE_BONUS * (civ2.cooperation / 10) :=
      mul_pos (mul_pos hr hrb) (div_pos hc2 (by norm_num))
    linarith
  · intro hr
    rw [cooperate_2_resources]
    have : 0 < civ2.resources * COOP_RESOURCE_BONUS * (civ1.cooperation / 10) :=
      mul_pos (mul_pos hr hrb) (div_pos hc1 (by norm_num))
    linarith

theorem C6_witness :
    (Civilization.init "C" 1 1 1 12).tech_level <
      (cooperate (Civilization.init "C" 1 1 1 12) (Civilization.init "D" 1 1 1 12)).1.tech_level :=
  (C6_amended (Civilization.init "C" 1 1 1 12) (Civilization.init "D" 1 1 1 12)
    ⟨1, 0, true, 1, 1, 1⟩
    (by
      apply interaction_kind_eq_cooperation
      · apply will_fight_eq_false
        · norm_num [Civilization.init, CONFLICT_THRESHOLD_AGG, max_def]
        · norm_num [Civilization.init, max_def]
        · norm_num [Civilization.init, max_def]
      · norm_num [Civilization.init, COOPERATION_THRESHOLD_COOP, max_def])
    (by norm_num [Civilization.init, max_def])
    (by norm_num [Civilization.init, max_def])
    (by norm_num [Civilization.init, max_def])
    (by norm_num [Civilization.init, max_def])).2.2.2.2.2.1

/-- C7: when both civilizations are constructed with aggressiveness 0 and
cooperation 0, no conflict and no cooperation event fires on any turn of any
run, for every sequence of in-range random draws. -/
theorem C7_no_events_with_zero_traits (n1 n2 : String) (i1 t1 i2 t2 : ℝ)
    (ds : List TurnDraws) (hds : ∀ d ∈ ds, DrawsInRange d) (k : ℕ) (hk : k < ds.length) :
    turn_kind (run_sim (Civilization.init n1 i1 t1 0 0, Civilization.init n2 i2 t2 0 0)
      (List.take k ds)) (ds.get ⟨k, hk⟩) = InteractionKind.nothing := by
  have hd := hds (ds.get ⟨k, hk⟩) (List.get_mem ds k hk)
  obtain ⟨hu1, hu2, -, -, -, -, -, -, hv1, hv2⟩ := hd
  have hagg1 : (run_sim (Civilization.init n1 i1 t1 0 0, Civilization.init n2 i2 t2 0 0)
      (List.take k ds)).1.aggressiveness = 0 := by
    rw [run_sim_1_aggressiveness]
    show (Civilization.init n1 i1 t1 0 0).aggressiveness = 0
    simp [Civilization.init]
  have hagg2 : (run_sim (Civilization.init n1 i1 t1 0 0, Civilization.init n2 i2 t2 0 0)
      (List.take k ds)).2.aggressiveness = 0 := by
    rw [run_sim_2_aggressiveness]
    show (Civilization.init n2 i2 t2 0 0).aggressiveness = 0
    simp [Civilization.init]
  have hcoop1 : (run_sim (Civilization.init n1 i1 t1 0 0, Civilization.init n2 i2 t2 0 0)
      (List.take k ds)).1.cooperation = 0 := by
    rw [run_sim_1_cooperation]
    show (Civilization.init n1 i1 t1 0 0).cooperation = 0
    simp [Civilization.init]
  have hcoop2 : (run_sim (Civilization.init n1 i1 t1 0 0, Civilization.init n2 i2 t2 0 0)
      (List.take k ds)).2.cooperation = 0 := by
    rw [run_sim_2_cooperation]
    show (Civilization.init n2 i2 t2 0 0).cooperation = 0
    simp [Civilization.init]
  simp only [turn_kind]
  split_ifs with hdead
  · rfl
  · apply interaction_kind_eq_nothing
    · apply will_fight_eq_false
      · rw [economic_update_aggressiveness, economic_update_aggressiveness, hagg1, hagg2]
        intro hcon
        have h6 : (6:ℝ) * (ds.get ⟨k, hk⟩).u_conflict < 0 + 0 := by
          have := hcon
          unfold CONFLICT_THRESHOLD_AGG at this
          linarith
        linarith
      · rw [economic_update_aggressiveness, economic_update_aggressiveness, hagg1, hagg2]
        norm_num
      · rw [economic_update_aggressiveness, economic_update_aggressiveness, hagg1, hagg2]
        norm_num
    · rw [economic_update_cooperation, economic_update_cooperation, hcoop1, hcoop2]
      intro hcon
      have h12 : (12:ℝ) * (ds.get ⟨k, hk⟩).u_coop < 0 + 0 := by
        have := hcon
        unfold COOPERATION_THRESHOLD_COOP at this
        linarith
      linarith

theorem C7_witness :
    turn_kind (run_sim (Civilization.init "A" 1 1 0 0, Civilization.init "B" 1 1 0 0)
      (List.take 0 [(⟨1, 0, true, 1, 1, 1⟩ : TurnDraws)]))
      (([(⟨1, 0, true, 1, 1, 1⟩ : TurnDraws)]).get ⟨0, by norm_num⟩) =
      InteractionKind.nothing :=
  C7_no_events_with_zero_traits "A" "B" 1 1 1 1 [(⟨1, 0, true, 1, 1, 1⟩ : TurnDraws)]
    (by
      intro d hd
      simp only [List.mem_singleton] at hd
      subst hd
      refine ⟨by norm_num, by norm_num, by norm_num, by norm_num, by norm_num,
        by norm_num, by norm_num, by norm_num, by norm_num, by norm_num⟩)
    0 (by norm_num)

end TwoCivSim
